import Mathlib

/-!
Verification of the Hamiltonian-assembly core of `nanowire_model/physics.py`
(repository `bdg-nanowire`).

The Python class `Physics` stores a parameter dict `self.param` and provides
three methods:

* `create_alpha`  : reads `t0 = self.param['t0']` and returns the literal
  numpy array `[[2*t0, 0], [0, 2*t0]]` (always 2 x 2);
* `create_beta`   : reads `t0` and returns `[[-t0, 0], [0, -t0]]` (always 2 x 2);
* `create_Hamiltonian` : reads `N_D = self.param['N_D']` and
  `N_int = self.param['N_int']`, allocates `H = np.zeros((N_D,N_D,N_int,N_int))`,
  computes `alpha` and `beta` once, and loops `for i in range(N_D)` doing
  `H[i,i] = alpha`, `H[i-1,i] = beta` when `i > 0`, `H[i+1,i] = beta` when
  `i < N_D - 1`; it finally stores the tensor as `self.H` (the method itself
  returns `None`).

The embedding below is explicit about the Python runtime behaviour the code
relies on:

* a dict lookup of an absent key raises `KeyError` (the code defines no other
  error class);
* the numpy slice assignment `H[i,j] = A` broadcasts `A` into the block of
  shape `(N_int, N_int)`; for the 2 x 2 arrays produced by `create_alpha` and
  `create_beta` the broadcast succeeds exactly when the block shape equals the
  array shape, and otherwise raises `ValueError`; an out-of-range block index
  would raise `IndexError`.

Numeric entries are modelled by rationals: the only arithmetic performed is
`2*t0` and `-t0`, which is exact in floating point, so the rational model is
faithful. Failure is modelled with `Except`: a `.error` result means the
Python call raised that exception, and `.ok` carries the value computed.
-/

/-- Exceptions the Python runtime can raise while executing this code. -/
inductive PyErr where
  | keyError : String → PyErr
  | valueError : String → PyErr
  | indexError : String → PyErr
deriving DecidableEq, Repr

/-- A numpy 2-d array: its shape and an entry function (entries at indices
outside the shape are never consulted). -/
structure NpArr2 where
  rows : ℕ
  cols : ℕ
  val : ℕ → ℕ → ℚ

/-- A numpy 4-d array of shape `(d1, d2, d3, d4)`. -/
@[ext]
structure NpArr4 where
  d1 : ℕ
  d2 : ℕ
  d3 : ℕ
  d4 : ℕ
  val : ℕ → ℕ → ℕ → ℕ → ℚ

/-- The parameter dict `self.param`, restricted to the keys this code reads
(`t0`, `N_D`, `N_int`); a `none` field models an absent key.  Site and
internal-dimension counts are modelled as naturals. -/
structure Param where
  t0 : Option ℚ
  N_D : Option ℕ
  N_int : Option ℕ

/-- An instance of the Python class `Physics`: the stored parameter dict and
the `self.H` attribute (absent, i.e. `none`, before `create_Hamiltonian` has
completed successfully). -/
structure Physics where
  param : Param
  H : Option NpArr4

/-- The literal array `np.array([[2*t0, 0], [0, 2*t0]])` built in
`create_alpha`. -/
def alphaMat (t0 : ℚ) : NpArr2 :=
  ⟨2, 2, fun k l =>
    if k = 0 ∧ l = 0 then 2*t0
    else if k = 0 ∧ l = 1 then 0
    else if k = 1 ∧ l = 0 then 0
    else if k = 1 ∧ l = 1 then 2*t0
    else 0⟩

/-- The literal array `np.array([[-t0, 0], [0, -t0]])` built in
`create_beta`. -/
def betaMat (t0 : ℚ) : NpArr2 :=
  ⟨2, 2, fun k l =>
    if k = 0 ∧ l = 0 then -t0
    else if k = 0 ∧ l = 1 then 0
    else if k = 1 ∧ l = 0 then 0
    else if k = 1 ∧ l = 1 then -t0
    else 0⟩

/-- `Physics.create_alpha`: reads `t0 = self.param['t0']` (raising `KeyError`
when absent) and returns the 2 x 2 array `[[2*t0, 0], [0, 2*t0]]`.  The method
only reads `self.param`, so it is embedded as a function of the dict. -/
def create_alpha (p : Param) : Except PyErr NpArr2 :=
  match p.t0 with
  | none => .error (.keyError "t0")
  | some t0 => .ok (alphaMat t0)

/-- `Physics.create_beta`: reads `t0` (raising `KeyError` when absent) and
returns the 2 x 2 array `[[-t0, 0], [0, -t0]]`. -/
def create_beta (p : Param) : Except PyErr NpArr2 :=
  match p.t0 with
  | none => .error (.keyError "t0")
  | some t0 => .ok (betaMat t0)

/-- `np.zeros((a, b, c, d))`: a zero-filled array of shape `(a, b, c, d)`. -/
def np_zeros4 (a b c d : ℕ) : NpArr4 :=
  ⟨a, b, c, d, fun _ _ _ _ => 0⟩

/-- The numpy slice assignment `H[i,j] = A`.  The target block `H[i,j]` has
shape `(H.d3, H.d4)`; an out-of-range block index raises `IndexError`, and the
assignment broadcasts `A` into the block: each source dimension must equal the
target dimension or be `1` (a size-1 source dimension is stretched), otherwise
numpy raises `ValueError`. -/
def setBlock (H : NpArr4) (i j : ℕ) (A : NpArr2) : Except PyErr NpArr4 :=
  if i < H.d1 ∧ j < H.d2 then
    if (A.rows = H.d3 ∨ A.rows = 1) ∧ (A.cols = H.d4 ∨ A.cols = 1) then
      .ok ⟨H.d1, H.d2, H.d3, H.d4, fun a b k l =>
        if a = i ∧ b = j then
          A.val (if A.rows = 1 then 0 else k) (if A.cols = 1 then 0 else l)
        else H.val a b k l⟩
    else .error (.valueError "could not broadcast input array into block shape")
  else .error (.indexError "index out of bounds")

/-- One iteration of the loop `for i in range(N_D)` in `create_Hamiltonian`:
`H[i,i] = alpha`; `H[i-1,i] = beta` when `i > 0`; `H[i+1,i] = beta` when
`i < N_D - 1`.  The assignments run in order and an exception raised by any of
them aborts the loop, which the `Except` bind models. -/
def loopBody (N_D : ℕ) (alpha beta : NpArr2) (H : NpArr4) (i : ℕ) :
    Except PyErr NpArr4 :=
  setBlock H i i alpha >>= fun H1 =>
    (if 0 < i then setBlock H1 (i-1) i beta else .ok H1) >>= fun H2 =>
      if i < N_D - 1 then setBlock H2 (i+1) i beta else .ok H2

/-- `Physics.create_Hamiltonian`, embedded as a function of the parameter
dict.  It reads `N_D` and `N_int` (raising `KeyError` when absent), allocates
the zero tensor of shape `(N_D, N_D, N_int, N_int)`, computes `alpha` and
`beta` once via `create_alpha` / `create_beta`, and runs the placement loop.
The `.ok` value is the tensor the method stores in `self.H` on completion (the
Python method itself returns `None`); a `.error` is the exception raised. -/
def create_Hamiltonian (p : Param) : Except PyErr NpArr4 :=
  match p.N_D with
  | none => .error (.keyError "N_D")
  | some N_D =>
    match p.N_int with
    | none => .error (.keyError "N_int")
    | some N_int =>
      let H := np_zeros4 N_D N_D N_int N_int
      match create_alpha p with
      | .error e => .error e
      | .ok alpha =>
        match create_beta p with
        | .error e => .error e
        | .ok beta => List.foldlM (loopBody N_D alpha beta) H (List.range N_D)

/-- A call `self.create_Hamiltonian()` seen from the caller: on completion
`self.H` is assigned the computed tensor and the call returns `None` (no
exception, modelled `none`); on an exception the method body has mutated only
its local variables, so `self` is unchanged and the exception propagates. -/
def call_create_Hamiltonian (s : Physics) : Physics × Option PyErr :=
  match create_Hamiltonian s.param with
  | .ok T => (⟨s.param, some T⟩, none)
  | .error e => (s, some e)

/-- An allocation event: `np.zeros` created a tensor of the recorded shape. -/
inductive AllocEv where
  | alloc : ℕ → ℕ → ℕ → ℕ → AllocEv
deriving DecidableEq, Repr

/-- `create_Hamiltonian` instrumented with the tensor allocations it performs,
in execution order: the `np.zeros((N_D,N_D,N_int,N_int))` line runs directly
after the two dict lookups of `N_D` and `N_int` and before `create_alpha` is
called, so a missing `t0` is only detected after the allocation. -/
def create_Hamiltonian_traced (p : Param) :
    List AllocEv × Except PyErr NpArr4 :=
  match p.N_D with
  | none => ([], .error (.keyError "N_D"))
  | some N_D =>
    match p.N_int with
    | none => ([], .error (.keyError "N_int"))
    | some N_int =>
      let H := np_zeros4 N_D N_D N_int N_int
      match create_alpha p with
      | .error e => ([.alloc N_D N_D N_int N_int], .error e)
      | .ok alpha =>
        match create_beta p with
        | .error e => ([.alloc N_D N_D N_int N_int], .error e)
        | .ok beta =>
          ([.alloc N_D N_D N_int N_int],
            List.foldlM (loopBody N_D alpha beta) H (List.range N_D))

/-- Shape of the tensor a `create_Hamiltonian` run produced (`none` when the
run raised). -/
def getShape : Except PyErr NpArr4 → Option (ℕ × ℕ × ℕ × ℕ)
  | .ok H => some (H.d1, H.d2, H.d3, H.d4)
  | .error _ => none

/-- Entry `H[i, j, k, l]` of the tensor a run produced (`none` on a raise). -/
def getEntry (r : Except PyErr NpArr4) (i j k l : ℕ) : Option ℚ :=
  match r with
  | .ok H => some (H.val i j k l)
  | .error _ => none

/-- The exception a run raised (`none` when it completed). -/
def getErr : Except PyErr NpArr4 → Option PyErr
  | .ok _ => none
  | .error e => some e

/-- The tensor a run produced, read out as nested lists over its full shape
(row-major), exactly as `H.tolist()` would print it; `none` on a raise. -/
def toLists : Except PyErr NpArr4 → Option (List (List (List (List ℚ))))
  | .ok H => some ((List.range H.d1).map fun i =>
      (List.range H.d2).map fun j =>
        (List.range H.d3).map fun k =>
          (List.range H.d4).map fun l => H.val i j k l)
  | .error _ => none

/-- Shape of the matrix a `create_alpha` / `create_beta` run produced. -/
def getShape2 : Except PyErr NpArr2 → Option (ℕ × ℕ)
  | .ok A => some (A.rows, A.cols)
  | .error _ => none

/-- Entry `A[k, l]` of the matrix a run produced. -/
def getEntry2 (r : Except PyErr NpArr2) (k l : ℕ) : Option ℚ :=
  match r with
  | .ok A => some (A.val k l)
  | .error _ => none

/-- Whether a `create_Hamiltonian` run completed without raising. -/
def isOk : Except PyErr NpArr4 → Bool
  | .ok _ => true
  | .error _ => false

/-- Bind on a successful `Except` computation. -/
lemma ok_bind {ε α β : Type} (a : α) (f : α → Except ε β) :
    (Except.ok a : Except ε α) >>= f = f a := rfl

/-- Bind on a raised `Except` computation. -/
lemma error_bind {ε α β : Type} (e : ε) (f : α → Except ε β) :
    (Except.error e : Except ε α) >>= f = .error e := rfl

/-- Entry function of the tensor after the first `m` iterations of the
placement loop on a device of `n` sites with 2 internal modes: iteration `i`
writes exactly the blocks of column `i` (namely `(i,i)`, `(i-1,i)` when
`i > 0`, and `(i+1,i)` when `i < n-1`), so every column `c < m` already holds
`alpha` on the diagonal and `beta` on the two neighbouring rows, and every
other entry is still zero. -/
def hamF (t0 : ℚ) (n m : ℕ) : ℕ → ℕ → ℕ → ℕ → ℚ := fun r c k l =>
  if c < m ∧ r = c then (alphaMat t0).val k l
  else if c < m ∧ (r + 1 = c ∨ (c + 1 = r ∧ r < n)) then (betaMat t0).val k l
  else 0

/-- State of the tensor after the first `m` loop iterations (see `hamF`). -/
def hamBlocks (t0 : ℚ) (n m : ℕ) : NpArr4 := ⟨n, n, 2, 2, hamF t0 n m⟩

lemma hamBlocks_zero (t0 : ℚ) (n : ℕ) :
    hamBlocks t0 n 0 = np_zeros4 n n 2 2 := by
  refine NpArr4.ext rfl rfl rfl rfl ?_
  funext r c k l
  simp [hamBlocks, hamF, np_zeros4]

/-- A `setBlock` with in-range indices and a source matrix of exactly the
block shape `(2, 2)` succeeds and performs a plain (broadcast-free) write. -/
lemma setBlock_ok22 (n1 n2 : ℕ) (f : ℕ → ℕ → ℕ → ℕ → ℚ) (i j : ℕ)
    (A : NpArr2) (hi : i < n1) (hj : j < n2)
    (hrA : A.rows = 2) (hcA : A.cols = 2) :
    setBlock ⟨n1, n2, 2, 2, f⟩ i j A = .ok ⟨n1, n2, 2, 2, fun a b k l =>
      if a = i ∧ b = j then A.val k l else f a b k l⟩ := by
  have h1 : ¬ (A.rows = 1) := by omega
  have h2 : ¬ (A.cols = 1) := by omega
  unfold setBlock
  rw [if_pos ⟨hi, hj⟩, if_pos ⟨Or.inl hrA, Or.inl hcA⟩]
  simp only [if_neg h1, if_neg h2]

/-- Iteration `m` of the placement loop, started from the state reached after
the first `m` iterations, succeeds and completes column `m`. -/
lemma loopBody_step (t0 : ℚ) (n m : ℕ) (hm : m < n) :
    loopBody n (alphaMat t0) (betaMat t0) (hamBlocks t0 n m) m =
      .ok (hamBlocks t0 n (m+1)) := by
  show loopBody n (alphaMat t0) (betaMat t0) ⟨n, n, 2, 2, hamF t0 n m⟩ m =
    .ok ⟨n, n, 2, 2, hamF t0 n (m+1)⟩
  unfold loopBody
  rw [setBlock_ok22 n n (hamF t0 n m) m m (alphaMat t0) hm hm rfl rfl]
  simp only [ok_bind]
  rcases Nat.eq_zero_or_pos m with hm0 | hm0
  · subst hm0
    rw [if_neg (lt_irrefl 0)]
    simp only [ok_bind]
    by_cases hn1 : 0 < n - 1
    · rw [if_pos hn1, setBlock_ok22 n n _ 1 0 (betaMat t0) (by omega) hm rfl rfl]
      refine congrArg Except.ok (NpArr4.ext rfl rfl rfl rfl ?_)
      funext a b k l
      simp only [hamF]
      split_ifs <;> first | rfl | (exfalso; omega)
    · rw [if_neg hn1]
      refine congrArg Except.ok (NpArr4.ext rfl rfl rfl rfl ?_)
      funext a b k l
      simp only [hamF]
      split_ifs <;> first | rfl | (exfalso; omega)
  · rw [if_pos hm0,
      setBlock_ok22 n n _ (m-1) m (betaMat t0) (by omega) hm rfl rfl]
    simp only [ok_bind]
    by_cases hlast : m < n - 1
    · rw [if_pos hlast,
        setBlock_ok22 n n _ (m+1) m (betaMat t0) (by omega) hm rfl rfl]
      refine congrArg Except.ok (NpArr4.ext rfl rfl rfl rfl ?_)
      funext a b k l
      simp only [hamF]
      split_ifs <;> first | rfl | (exfalso; omega)
    · rw [if_neg hlast]
      refine congrArg Except.ok (NpArr4.ext rfl rfl rfl rfl ?_)
      funext a b k l
      simp only [hamF]
      split_ifs <;> first | rfl | (exfalso; omega)

/-- Running the first `m` loop iterations from the zero tensor builds the
block-tridiagonal tensor column by column. -/
lemma foldlM_hamBlocks (t0 : ℚ) (n : ℕ) : ∀ m, m ≤ n →
    List.foldlM (loopBody n (alphaMat t0) (betaMat t0)) (np_zeros4 n n 2 2)
      (List.range m) = .ok (hamBlocks t0 n m) := by
  intro m
  induction m with
  | zero =>
    intro _
    rw [List.range_zero, List.foldlM_nil, hamBlocks_zero]
    rfl
  | succ m ih =>
    intro hm
    rw [List.range_succ, List.foldlM_append, ih (by omega)]
    simp only [ok_bind]
    rw [List.foldlM_cons, loopBody_step t0 n m (by omega)]
    simp only [ok_bind, List.foldlM_nil]
    rfl

/-- With all three keys present and `N_int = 2`, `create_Hamiltonian`
completes and computes exactly the block-tridiagonal tensor `hamBlocks`. -/
lemma create_Hamiltonian_ok (t0 : ℚ) (n : ℕ) :
    create_Hamiltonian ⟨some t0, some n, some 2⟩ = .ok (hamBlocks t0 n n) :=
  foldlM_hamBlocks t0 n n le_rfl

/-- With at least one site and `N_int ≠ 2`, the very first block assignment
`H[0,0] = alpha` cannot broadcast the 2 x 2 `alpha` into the `(N_int, N_int)`
block, so `create_Hamiltonian` raises numpy's `ValueError`. -/
lemma create_Hamiltonian_broadcast_err (t0 : ℚ) (n N : ℕ) (hn : 1 ≤ n)
    (hN : N ≠ 2) :
    create_Hamiltonian ⟨some t0, some n, some N⟩ =
      .error (.valueError "could not broadcast input array into block shape") := by
  obtain ⟨k, rfl⟩ : ∃ k, n = k + 1 := ⟨n - 1, by omega⟩
  show List.foldlM (loopBody (k+1) (alphaMat t0) (betaMat t0))
      (np_zeros4 (k+1) (k+1) N N) (List.range (k+1)) = _
  have hns : ¬ (((alphaMat t0).rows = (np_zeros4 (k+1) (k+1) N N).d3 ∨
        (alphaMat t0).rows = 1) ∧
      ((alphaMat t0).cols = (np_zeros4 (k+1) (k+1) N N).d4 ∨
        (alphaMat t0).cols = 1)) := by
    intro hcon
    have h2 : (2:ℕ) = N ∨ (2:ℕ) = 1 := hcon.1
    omega
  have hsb : setBlock (np_zeros4 (k+1) (k+1) N N) 0 0 (alphaMat t0) =
      .error (.valueError "could not broadcast input array into block shape") := by
    unfold setBlock
    rw [if_pos ⟨Nat.succ_pos k, Nat.succ_pos k⟩, if_neg hns]
  rw [List.range_succ_eq_map, List.foldlM_cons]
  unfold loopBody
  rw [hsb]
  rfl

/-- A completed run with at least one site forces `N_int = 2`: for any other
value numpy rejects broadcasting the hard-coded 2 x 2 blocks. -/
lemma ok_forces_N_int_two (t0 : ℚ) (n N : ℕ) (hn : 1 ≤ n)
    (h : isOk (create_Hamiltonian ⟨some t0, some n, some N⟩) = true) :
    N = 2 := by
  by_contra hN
  rw [create_Hamiltonian_broadcast_err t0 n N hn hN] at h
  simp [isOk] at h

/-- Claim C6: for the concrete input `t0 = 1.0`, `N_D = 3`, `N_int = 2`,
assembly produces a tensor of shape `(3,3,2,2)` whose blocks are
`H[0,0] = H[1,1] = H[2,2] = [[2,0],[0,2]]`,
`H[0,1] = H[1,0] = H[1,2] = H[2,1] = [[-1,0],[0,-1]]`, and every other block
(namely `H[0,2]` and `H[2,0]`) all-zero. -/
theorem claim_C6_concrete_3_sites :
    getShape (create_Hamiltonian ⟨some 1, some 3, some 2⟩) = some (3, 3, 2, 2) ∧
    toLists (create_Hamiltonian ⟨some 1, some 3, some 2⟩) =
      some [[[[2,0],[0,2]], [[-1,0],[0,-1]], [[0,0],[0,0]]],
            [[[-1,0],[0,-1]], [[2,0],[0,2]], [[-1,0],[0,-1]]],
            [[[0,0],[0,0]], [[-1,0],[0,-1]], [[2,0],[0,2]]]] := by
  rw [create_Hamiltonian_ok]
  constructor
  · rfl
  · simp [toLists, hamBlocks, hamF, alphaMat, betaMat, List.range_succ]

/-- Claim C2 counterexample: at the valid parameter set `t0 = 1`, `N_D = 2`,
`N_int = 3`, assembly does not return a tensor at all: the first block
assignment fails to broadcast the hard-coded 2 x 2 `alpha` block into the
3 x 3 target block, and `create_Hamiltonian` raises `ValueError`. -/
theorem claim_C2_cex_N_int_3 :
    create_Hamiltonian ⟨some 1, some 2, some 3⟩ =
      .error (.valueError "could not broadcast input array into block shape") := rfl

/-- Claim C2 (amended): for every real `t0` and every `N_D`, with `N_int = 2`
the assembly completes and the tensor it stores in `self.H` has shape
`(N_D, N_D, 2, 2)`. -/
theorem claim_C2_amended_shape (t0 : ℚ) (n : ℕ) :
    getShape (create_Hamiltonian ⟨some t0, some n, some 2⟩) =
      some (n, n, 2, 2) := by
  rw [create_Hamiltonian_ok]
  rfl

/-- Claim C3 counterexample: with `t0 = 1` and `N_int = 3` in the parameter
dict, `create_alpha` returns a 2 x 2 matrix, not the 3 x 3 matrix the claim
requires (`create_alpha` never reads `N_int`); likewise `create_beta`. -/
theorem claim_C3_cex_alpha_is_2x2 :
    getShape2 (create_alpha ⟨some 1, some 1, some 3⟩) = some (2, 2) ∧
    getShape2 (create_alpha ⟨some 1, some 1, some 3⟩) ≠ some (3, 3) ∧
    getShape2 (create_beta ⟨some 1, some 1, some 3⟩) = some (2, 2) ∧
    getShape2 (create_beta ⟨some 1, some 1, some 3⟩) ≠ some (3, 3) := by
  refine ⟨rfl, ?_, rfl, ?_⟩ <;> decide

/-- Claim C3 (amended): for every real `t0` and every contents of the `N_D`
and `N_int` slots, `create_alpha` returns the fixed 2 x 2 matrix with `2*t0`
on both diagonal entries and `0` off-diagonal, and `create_beta` the fixed
2 x 2 matrix with `-t0` on both diagonal entries and `0` off-diagonal; the
matrices have the size the claim states only when `N_int = 2`. -/
theorem claim_C3_amended_blocks (t0 : ℚ) (nd ni : Option ℕ) :
    getShape2 (create_alpha ⟨some t0, nd, ni⟩) = some (2, 2) ∧
    getEntry2 (create_alpha ⟨some t0, nd, ni⟩) 0 0 = some (2*t0) ∧
    getEntry2 (create_alpha ⟨some t0, nd, ni⟩) 0 1 = some 0 ∧
    getEntry2 (create_alpha ⟨some t0, nd, ni⟩) 1 0 = some 0 ∧
    getEntry2 (create_alpha ⟨some t0, nd, ni⟩) 1 1 = some (2*t0) ∧
    getShape2 (create_beta ⟨some t0, nd, ni⟩) = some (2, 2) ∧
    getEntry2 (create_beta ⟨some t0, nd, ni⟩) 0 0 = some (-t0) ∧
    getEntry2 (create_beta ⟨some t0, nd, ni⟩) 0 1 = some 0 ∧
    getEntry2 (create_beta ⟨some t0, nd, ni⟩) 1 0 = some 0 ∧
    getEntry2 (create_beta ⟨some t0, nd, ni⟩) 1 1 = some (-t0) := by
  refine ⟨rfl, ?_, ?_, ?_, ?_, rfl, ?_, ?_, ?_, ?_⟩ <;>
    simp [create_alpha, create_beta, getEntry2, alphaMat, betaMat]

/-- Claim C5 counterexample: at `N_D = 1` with the valid internal dimension
`N_int = 3` (and `t0 = 1`), assembly does not succeed: the single on-site
assignment `H[0,0] = alpha` raises a broadcast `ValueError`. -/
theorem claim_C5_cex_N_int_3 :
    create_Hamiltonian ⟨some 1, some 1, some 3⟩ =
      .error (.valueError "could not broadcast input array into block shape") := rfl

/-- Claim C5 (amended): for `N_D = 1`, `N_int = 2` and any real `t0`, assembly
succeeds (in particular no out-of-bounds index is touched: no `IndexError`),
and the resulting `(1, 1, 2, 2)` tensor consists of the single on-site block
`H[0,0] = [[2*t0, 0], [0, 2*t0]]`; no coupling block is placed.  For
`N_int ≠ 2` the on-site assignment itself raises a broadcast error. -/
theorem claim_C5_amended_single_site (t0 : ℚ) :
    getShape (create_Hamiltonian ⟨some t0, some 1, some 2⟩) =
      some (1, 1, 2, 2) ∧
    toLists (create_Hamiltonian ⟨some t0, some 1, some 2⟩) =
      some [[[[2*t0, 0], [0, 2*t0]]]] := by
  rw [create_Hamiltonian_ok]
  refine ⟨rfl, ?_⟩
  simp [toLists, hamBlocks, hamF, alphaMat, betaMat, List.range_succ]

/-- Claim C1: whenever assembly completes on parameters `(t0, N_D, N_int)`
(for `N_D ≥ 1` this forces `N_int = 2`, see `ok_forces_N_int_two`), the tensor
has `H[i,i]` equal to the diagonal matrix with `2*t0` on every diagonal entry
for every site `i < N_D`, and `H[i-1,i]` as well as `H[i+1,i]` equal to the
diagonal matrix with `-t0` on every diagonal entry, stated entrywise: for site
indices `i, j < N_D` at distance at most 1 and internal indices `k, l < N_int`
the entry `H[i,j,k,l]` is `2*t0` when `k = l` on the diagonal, `-t0` when
`k = l` off the diagonal, and `0` when `k ≠ l`. -/
theorem claim_C1_tridiagonal_blocks (t0 : ℚ) (n N i j k l : ℕ)
    (hok : isOk (create_Hamiltonian ⟨some t0, some n, some N⟩) = true)
    (hi : i < n) (hj : j < n) (hadj : i = j ∨ i + 1 = j ∨ j + 1 = i)
    (hk : k < N) (hl : l < N) :
    getEntry (create_Hamiltonian ⟨some t0, some n, some N⟩) i j k l =
      some (if k = l then (if i = j then 2*t0 else -t0) else 0) := by
  have hN : N = 2 := ok_forces_N_int_two t0 n N (by omega) hok
  subst hN
  rw [create_Hamiltonian_ok]
  simp only [getEntry]
  refine congrArg some ?_
  show hamF t0 n n i j k l = _
  unfold hamF
  interval_cases k <;> interval_cases l <;>
    simp only [alphaMat, betaMat, true_and, and_true, false_and, and_false,
      if_true, if_false] <;>
    split_ifs <;> first | rfl | contradiction | (exfalso; omega)

/-- Claim C1 witness: at `t0 = 1`, `N_D = 2`, `N_int = 2`, assembly completes
and the super-diagonal block entry `H[0,1,0,0]` evaluates to `-1`. -/
theorem claim_C1_witness :
    getEntry (create_Hamiltonian ⟨some 1, some 2, some 2⟩) 0 1 0 0 =
      some (if (0:ℕ) = 0 then (if (0:ℕ) = 1 then 2*1 else -(1:ℚ)) else 0) :=
  claim_C1_tridiagonal_blocks 1 2 2 0 1 0 0 rfl (by omega) (by omega)
    (Or.inr (Or.inl rfl)) (by omega) (by omega)

/-- Claim C4: whenever assembly completes, every block `H[row, col]` with
`|row - col| > 1` is all-zero (block-tridiagonal sparsity), stated entrywise
over the internal indices `k, l < N_int`. -/
theorem claim_C4_far_blocks_zero (t0 : ℚ) (n N r c k l : ℕ)
    (hok : isOk (create_Hamiltonian ⟨some t0, some n, some N⟩) = true)
    (hr : r < n) (hc : c < n) (hfar : c + 1 < r ∨ r + 1 < c)
    (hk : k < N) (hl : l < N) :
    getEntry (create_Hamiltonian ⟨some t0, some n, some N⟩) r c k l =
      some 0 := by
  have hN : N = 2 := ok_forces_N_int_two t0 n N (by omega) hok
  subst hN
  rw [create_Hamiltonian_ok]
  simp only [getEntry]
  refine congrArg some ?_
  show hamF t0 n n r c k l = 0
  unfold hamF
  rw [if_neg (by omega), if_neg (by omega)]

/-- Claim C4 witness: at `t0 = 1`, `N_D = 3`, `N_int = 2`, the far block entry
`H[2,0,1,1]` is zero. -/
theorem claim_C4_witness :
    getEntry (create_Hamiltonian ⟨some 1, some 3, some 2⟩) 2 0 1 1 =
      some 0 :=
  claim_C4_far_blocks_zero 1 3 2 2 0 1 1 rfl (by omega) (by omega)
    (Or.inl (by omega)) (by omega) (by omega)

/-- Claim C10: whenever assembly completes, the tensor is symmetric in its two
site indices: `H[row, col]` and `H[col, row]` agree entrywise for all site
indices `row, col < N_D` and internal indices `k, l < N_int` (the same `beta`
block sits on the sub- and the super-diagonal, and all blocks are diagonal
matrices). -/
theorem claim_C10_site_symmetric (t0 : ℚ) (n N r c k l : ℕ)
    (hok : isOk (create_Hamiltonian ⟨some t0, some n, some N⟩) = true)
    (hr : r < n) (hc : c < n) (hk : k < N) (hl : l < N) :
    getEntry (create_Hamiltonian ⟨some t0, some n, some N⟩) r c k l =
      getEntry (create_Hamiltonian ⟨some t0, some n, some N⟩) c r k l := by
  have hN : N = 2 := ok_forces_N_int_two t0 n N (by omega) hok
  subst hN
  rw [create_Hamiltonian_ok]
  simp only [getEntry]
  refine congrArg some ?_
  show hamF t0 n n r c k l = hamF t0 n n c r k l
  unfold hamF
  split_ifs <;> first | rfl | contradiction | (exfalso; omega)

/-- Claim C10 witness: at `t0 = 2`, `N_D = 2`, `N_int = 2`, the entries
`H[0,1,1,0]` and `H[1,0,1,0]` agree. -/
theorem claim_C10_witness :
    getEntry (create_Hamiltonian ⟨some 2, some 2, some 2⟩) 0 1 1 0 =
      getEntry (create_Hamiltonian ⟨some 2, some 2, some 2⟩) 1 0 1 0 :=
  claim_C10_site_symmetric 2 2 2 0 1 1 0 rfl (by omega) (by omega)
    (by omega) (by omega)

/-- Claim C7 counterexample: at the concrete parameter dict lacking `t0`
(with `N_D = 1`, `N_int = 2` present), assembly raises the Python built-in
`KeyError` for the key `t0`.  The source defines no `MissingParameterError`
class at all, so that exception is never raised. -/
theorem claim_C7_cex_keyError :
    create_Hamiltonian ⟨none, some 1, some 2⟩ =
      .error (.keyError "t0") := rfl

/-- Claim C7 (amended): for every parameter dict lacking `t0`, `N_D` or
`N_int`, assembly raises the Python built-in `KeyError` naming the missing
key, and no tensor is produced.  `N_D` is read first, then `N_int`, then `t0`
(inside `create_alpha`), so when several keys are missing the earliest read
wins. -/
theorem claim_C7_amended_keyError (t0 : Option ℚ) (n m : ℕ) (ni : Option ℕ) :
    create_Hamiltonian ⟨t0, none, ni⟩ = .error (.keyError "N_D") ∧
    create_Hamiltonian ⟨t0, some n, none⟩ = .error (.keyError "N_int") ∧
    create_Hamiltonian ⟨none, some n, some m⟩ = .error (.keyError "t0") :=
  ⟨rfl, rfl, rfl⟩

/-- Claim C8 counterexample: at the concrete parameter dict with `N_D = 0`
(and `t0 = 1`, `N_int = 2` present), assembly raises nothing at all: the code
performs no dimension validation, `np.zeros((0,0,2,2))` succeeds and the
placement loop is empty, so an empty tensor is produced instead of the claimed
`InvalidDimensionError` (which the source never defines). -/
theorem claim_C8_cex_N_D_zero_ok :
    isOk (create_Hamiltonian ⟨some 1, some 0, some 2⟩) = true := rfl

/-- Claim C8 (amended): the code never raises an `InvalidDimensionError` (no
such class exists).  With all keys present, `N_D = 0` succeeds and yields an
(empty) tensor for any `N_int`; and for `N_D ≥ 1` with `N_int ≠ 2` (in
particular `N_int = 0`) the first block assignment raises numpy's broadcast
`ValueError`. -/
theorem claim_C8_amended_no_validation (t0 : ℚ) (n m : ℕ) :
    isOk (create_Hamiltonian ⟨some t0, some 0, some m⟩) = true ∧
    (1 ≤ n → m ≠ 2 → create_Hamiltonian ⟨some t0, some n, some m⟩ =
      .error (.valueError "could not broadcast input array into block shape")) :=
  ⟨rfl, fun hn hm => create_Hamiltonian_broadcast_err t0 n m hn hm⟩

/-- Claim C8 witness: `N_D = 0, N_int = 7` succeeds, while `N_D = 4,
N_int = 7` raises the broadcast `ValueError`. -/
theorem claim_C8_witness :
    isOk (create_Hamiltonian ⟨some 5, some 0, some 7⟩) = true ∧
    create_Hamiltonian ⟨some 5, some 4, some 7⟩ =
      .error (.valueError "could not broadcast input array into block shape") :=
  ⟨(claim_C8_amended_no_validation 5 4 7).1,
    (claim_C8_amended_no_validation 5 4 7).2 (by omega) (by omega)⟩

/-- Claim C9 counterexample: at the concrete parameter dict lacking only
`t0`, the run allocates the zero tensor (shape `(1,1,2,2)`) first and only
then raises `KeyError 't0'` — the error is not raised before tensor
allocation, contrary to the claim. -/
theorem claim_C9_cex_alloc_before_error :
    (create_Hamiltonian_traced ⟨none, some 1, some 2⟩).1 =
      [.alloc 1 1 2 2] ∧
    getErr (create_Hamiltonian_traced ⟨none, some 1, some 2⟩).2 =
      some (.keyError "t0") := ⟨rfl, rfl⟩

/-- Claim C9 (amended): a failing call of `create_Hamiltonian` always leaves
the `Physics` object unchanged — `self.H` is assigned only after the loop has
completed, so the caller never observes a partially filled tensor.  However,
only the missing-`N_D` and missing-`N_int` errors precede the tensor
allocation; a missing `t0` is detected only after `np.zeros` has allocated
the `(N_D, N_D, N_int, N_int)` tensor (that tensor stays local and is
discarded). -/
theorem claim_C9_amended_state_unchanged (s : Physics) (e : PyErr)
    (t0 : Option ℚ) (n m : ℕ)
    (he : (call_create_Hamiltonian s).2 = some e) :
    (call_create_Hamiltonian s).1 = s ∧
    (create_Hamiltonian_traced ⟨t0, none, some m⟩).1 = [] ∧
    (create_Hamiltonian_traced ⟨t0, some n, none⟩).1 = [] ∧
    (create_Hamiltonian_traced ⟨none, some n, some m⟩).1 =
      [.alloc n n m m] := by
  refine ⟨?_, rfl, rfl, rfl⟩
  rcases hres : create_Hamiltonian s.param with er | T
  · simp [call_create_Hamiltonian, hres]
  · simp [call_create_Hamiltonian, hres] at he

/-- Claim C9 witness: a call on a `Physics` object whose dict lacks `t0`
fails and leaves the object unchanged, and the three trace facts hold at
concrete parameters. -/
theorem claim_C9_witness :
    (call_create_Hamiltonian ⟨⟨none, some 1, some 2⟩, none⟩).1 =
      (⟨⟨none, some 1, some 2⟩, none⟩ : Physics) ∧
    (create_Hamiltonian_traced ⟨some 3, none, some 2⟩).1 = [] ∧
    (create_Hamiltonian_traced ⟨some 3, some 1, none⟩).1 = [] ∧
    (create_Hamiltonian_traced ⟨none, some 1, some 2⟩).1 =
      [.alloc 1 1 2 2] :=
  claim_C9_amended_state_unchanged ⟨⟨none, some 1, some 2⟩, none⟩
    (.keyError "t0") (some 3) 1 2 rfl
